import Mathlib

/-!
# Backtesting engine: shallow embedding and verification

A shallow embedding in Lean 4 of the backtesting and performance-evaluation
engine of the repository (files `src/backend/backtester/backtester.py` and
`src/backend/backtester/benchmark.py`), together with theorems settling the
spec's claims about it.

Modelling conventions:
* Python floats are modelled as rationals (`ℚ`); the claims are about exact
  arithmetic identities, not rounding.
* Timestamps are modelled as naturals (`ℕ`); only their identity matters here.
* Python dicts that serve as records (`TradeRecord`, `Position`, the equity
  points, the config sub-dicts) are modelled as structures.  The `.get(key,
  default)` reads of the config dicts are modelled by the structure simply
  holding the resolved value.
* The Strategy and the Risk Sizer are external collaborators (spec §6); they
  enter the embedding as function parameters with the call contracts the code
  uses.
* `sharpe_ratio` / `sortino_ratio` values need real square roots; no claim in
  scope depends on their value, so the statistics embedding omits those two
  fields (everything else of `_calculate_statistics` is embedded).
-/

/-- `Signal` enum from `src/backend/strategy` as consumed by the backtester. -/
inductive Signal where
  | BUY
  | SELL
  | HOLD
  | CLOSE_LONG
  | CLOSE_SHORT
  | CLOSE_ALL
  deriving DecidableEq, Repr

/-- Position side: the `'LONG'` / `'SHORT'` strings of the Python dict. -/
inductive Side where
  | LONG
  | SHORT
  deriving DecidableEq, Repr

/-- One OHLCV bar (a row of the indicator-enriched dataframe).  Only the
fields the simulation loop reads are kept; `atr` is `none` when the column
is absent or NaN. -/
structure Bar where
  timestamp : ℕ
  open_p : ℚ
  high : ℚ
  low : ℚ
  close : ℚ
  volume : ℚ
  atr : Option ℚ
  deriving DecidableEq, Repr

/-- The `slippage` config sub-dict (`self.slippage_config`), with the
defaults of the `.get` calls resolved: `enabled` (default `True`),
`type` (default `'percentage'`), `percentage` (default `0.0001`),
`amount` (default `100`). -/
structure SlippageConfig where
  enabled : Bool
  type : String
  percentage : ℚ
  amount : ℚ
  deriving DecidableEq, Repr

/-- The `commission` config sub-dict (`self.commission_config`):
`type` (default `'percentage'`), `maker_fee` (default `0.0005`),
`taker_fee` (default `0.0009`), `fixed_fee` (default `0`). -/
structure CommissionConfig where
  type : String
  maker_fee : ℚ
  taker_fee : ℚ
  fixed_fee : ℚ
  deriving DecidableEq, Repr

/-- `Backtester._apply_slippage(price, signal)`. -/
def applySlippage (cfg : SlippageConfig) (price : ℚ) (signal : Signal) : ℚ :=
  if cfg.enabled = false then price
  else if cfg.type = "percentage" then
    if signal = Signal.BUY ∨ signal = Signal.CLOSE_SHORT then
      price * (1 + cfg.percentage)
    else
      price * (1 - cfg.percentage)
  else if cfg.type = "fixed" then
    if signal = Signal.BUY ∨ signal = Signal.CLOSE_SHORT then
      price + cfg.amount
    else
      price - cfg.amount
  else price

/-- `Backtester._calculate_commission(value, is_maker)`. -/
def calculateCommission (cfg : CommissionConfig) (value : ℚ) (is_maker : Bool) : ℚ :=
  if cfg.type = "percentage" then
    if is_maker then value * cfg.maker_fee else value * cfg.taker_fee
  else if cfg.type = "fixed" then cfg.fixed_fee
  else 0

/-- A `Position` dict: created by `_execute_trade` on entry, destroyed by
`_close_position`. -/
structure Position where
  side : Side
  entry_price : ℚ
  size : ℚ
  entry_time : ℕ
  stop_loss : Option ℚ
  take_profit : Option ℚ
  deriving DecidableEq, Repr

/-- A trade dict appended to `self.trades`: `rtype` is the `'type'` key
(`"ENTRY"` or `"EXIT"`); entry records carry no `'pnl'` key, modelled as
`pnl = none`. -/
structure TradeRecord where
  timestamp : ℕ
  rtype : String
  side : String
  price : ℚ
  size : ℚ
  value : ℚ
  commission : ℚ
  pnl : Option ℚ
  balance_before : ℚ
  balance_after : ℚ
  deriving DecidableEq, Repr

/-- Result of `Backtester._close_position` (the dict it returns always has
`executed = True` and `position_closed = True`). -/
structure CloseResult where
  trade : TradeRecord
  new_balance : ℚ
  deriving DecidableEq, Repr

/-- `Backtester._close_position(position, price, timestamp, balance)`. -/
def closePosition (slip : SlippageConfig) (comm : CommissionConfig)
    (position : Position) (price : ℚ) (timestamp : ℕ) (balance : ℚ) :
    CloseResult :=
  let exit_signal := if position.side = Side.LONG then Signal.SELL else Signal.BUY
  let exit_price := applySlippage slip price exit_signal
  let pnl :=
    if position.side = Side.LONG then
      (exit_price - position.entry_price) * position.size
    else
      (position.entry_price - exit_price) * position.size
  let commission := calculateCommission comm (position.size * exit_price) false
  { trade :=
      { timestamp := timestamp
        rtype := "EXIT"
        side := if position.side = Side.LONG then "SELL" else "BUY"
        price := exit_price
        size := position.size
        value := position.size * exit_price
        commission := commission
        pnl := some pnl
        balance_before := balance
        balance_after := balance + pnl - commission }
    new_balance := balance + pnl - commission }

/-- The Risk Sizer call contract (spec §6): `calculate_stop_loss(signal,
price, atr)`, `calculate_position_size(signal, balance, price, stop_loss)`,
`calculate_take_profit(signal, entry_price, stop_loss)`.  External
collaborator, passed in as functions. -/
structure RiskModel where
  stop_loss : Signal → ℚ → Option ℚ → Option ℚ
  position_size : Signal → ℚ → ℚ → Option ℚ → ℚ
  take_profit : Signal → ℚ → Option ℚ → Option ℚ

/-- The dict returned by `Backtester._execute_trade`. -/
structure ExecResult where
  executed : Bool
  trade : Option TradeRecord
  position_opened : Bool
  position_closed : Bool
  new_position : Option Position
  new_balance : ℚ
  deriving DecidableEq, Repr

/-- `Backtester._execute_trade(signal, price, timestamp, balance,
current_position, strategy, df)`; the dataframe argument is only read for
`df['atr'].iloc[-1]`, passed here as `atr`. -/
def executeTrade (slip : SlippageConfig) (comm : CommissionConfig)
    (risk : RiskModel) (signal : Signal) (price : ℚ) (timestamp : ℕ)
    (balance : ℚ) (current_position : Option Position) (atr : Option ℚ) :
    ExecResult :=
  let base : ExecResult :=
    { executed := false, trade := none, position_opened := false
      position_closed := false, new_position := none, new_balance := balance }
  if signal = Signal.BUY ∨ signal = Signal.SELL then
    let stop_loss := risk.stop_loss signal price atr
    let position_size := risk.position_size signal balance price stop_loss
    if position_size > 0 then
      let entry_price := applySlippage slip price signal
      let commission := calculateCommission comm (position_size * entry_price) true
      let trade : TradeRecord :=
        { timestamp := timestamp
          rtype := "ENTRY"
          side := if signal = Signal.BUY then "BUY" else "SELL"
          price := entry_price
          size := position_size
          value := position_size * entry_price
          commission := commission
          pnl := none
          balance_before := balance
          balance_after := balance - commission }
      let new_position : Position :=
        { side := if signal = Signal.BUY then Side.LONG else Side.SHORT
          entry_price := entry_price
          size := position_size
          entry_time := timestamp
          stop_loss := stop_loss
          take_profit := risk.take_profit signal entry_price stop_loss }
      { executed := true, trade := some trade, position_opened := true
        position_closed := false, new_position := some new_position
        new_balance := balance - commission }
    else base
  else if (signal = Signal.CLOSE_LONG ∨ signal = Signal.CLOSE_SHORT ∨
      signal = Signal.CLOSE_ALL) then
    match current_position with
    | some pos =>
        let cr := closePosition slip comm pos price timestamp balance
        { executed := true, trade := some cr.trade, position_opened := false
          position_closed := true, new_position := none
          new_balance := cr.new_balance }
    | none => base
  else base

/-- `account_info` dict built each bar by `run_backtest`. -/
structure AccountInfo where
  total_balance : ℚ
  available_balance : ℚ
  margin_level : ℚ
  deriving DecidableEq, Repr

/-- Strategy call contract (spec §6): `generate_signal(history_so_far,
current_position_or_null, account_info)`; the `details` half of the returned
pair is only echoed into the signal log and is not modelled. -/
abbrev Strategy : Type := List Bar → Option Position → AccountInfo → Signal

/-- An entry of `self.signals` (its `details` field is not modelled). -/
structure SignalRecord where
  timestamp : ℕ
  signal : Signal
  price : ℚ
  deriving DecidableEq, Repr

/-- An entry of `self.equity_curve`. -/
structure EquityPoint where
  timestamp : ℕ
  balance : ℚ
  equity : ℚ
  price : ℚ
  deriving DecidableEq, Repr

/-- The mutable per-run state of `run_backtest` (`account_balance`,
`position`, and the instance lists).  `histories` is instrumentation: it
records, per loop iteration, the dataframe view passed as first argument to
`strategy.generate_signal`, so no-lookahead can be stated. -/
structure RunState where
  balance : ℚ
  position : Option Position
  trades : List TradeRecord
  equity_curve : List EquityPoint
  signals : List SignalRecord
  histories : List (List Bar)
  deriving DecidableEq, Repr

/-- One iteration of the `for i in range(len(df))` loop of
`Backtester.run_backtest`: build `current_df = df.iloc[:i+1]`, query the
strategy, execute a non-HOLD signal, append one equity point. -/
def processBar (slip : SlippageConfig) (comm : CommissionConfig)
    (risk : RiskModel) (strat : Strategy) (df : List Bar)
    (st : RunState) (i : ℕ) : RunState :=
  match df[i]? with
  | none => st
  | some current_bar =>
    let current_time := current_bar.timestamp
    let current_price := current_bar.close
    let current_df := df.take (i + 1)
    let account_info : AccountInfo :=
      { total_balance := st.balance
        available_balance := if st.position = none then st.balance else 0
        margin_level := 1 }
    let signal := strat current_df st.position account_info
    let signals :=
      if signal ≠ Signal.HOLD then
        st.signals ++ [{ timestamp := current_time, signal := signal
                         price := current_price }]
      else st.signals
    let atr := match current_df.getLast? with
      | some b => b.atr
      | none => none
    let step :=
      if signal ≠ Signal.HOLD then
        let tr := executeTrade slip comm risk signal current_price
          current_time st.balance st.position atr
        if tr.executed then
          let pos1 := if tr.position_closed then none else st.position
          let pos2 := if tr.position_opened then tr.new_position else pos1
          (tr.new_balance, pos2, st.trades ++ tr.trade.toList)
        else (st.balance, st.position, st.trades)
      else (st.balance, st.position, st.trades)
    let balance := step.1
    let position := step.2.1
    let trades := step.2.2
    let unrealized_pnl :=
      match position with
      | some pos =>
          if pos.side = Side.LONG then
            (current_price - pos.entry_price) * pos.size
          else
            (pos.entry_price - current_price) * pos.size
      | none => 0
    { balance := balance
      position := position
      trades := trades
      equity_curve := st.equity_curve ++
        [{ timestamp := current_time, balance := balance
           equity := balance + unrealized_pnl, price := current_price }]
      signals := signals
      histories := st.histories ++ [current_df] }

/-- The zeroed state `_reset` produces, with the starting balance. -/
def initState (initial_capital : ℚ) : RunState :=
  { balance := initial_capital, position := none, trades := []
    equity_curve := [], signals := [], histories := [] }

/-- The bar loop of `run_backtest` (everything before the forced close). -/
def runLoop (slip : SlippageConfig) (comm : CommissionConfig)
    (risk : RiskModel) (strat : Strategy) (initial_capital : ℚ)
    (df : List Bar) : RunState :=
  (List.range df.length).foldl (processBar slip comm risk strat df)
    (initState initial_capital)

/-- `run_backtest` through the end-of-run forced close: if a position is
still open after the loop it is closed at the final bar's close price; only
`trades` and the balance are updated (the Python code appends no equity
point there).  The source guards only on `position`; `df` is known non-empty
at that point because an empty dataframe raises before the loop. -/
def runBacktestState (slip : SlippageConfig) (comm : CommissionConfig)
    (risk : RiskModel) (strat : Strategy) (initial_capital : ℚ)
    (df : List Bar) : RunState :=
  let st := runLoop slip comm risk strat initial_capital df
  match st.position, df.getLast? with
  | some pos, some final_bar =>
      let cr := closePosition slip comm pos final_bar.close
        final_bar.timestamp st.balance
      { st with trades := st.trades ++ [cr.trade], balance := cr.new_balance }
  | _, _ => st

/-- Fold-based maximum of a list, `0` on the empty list (only used on
non-empty lists, mirroring pandas `.max()` on a non-empty series). -/
def listMax : List ℚ → ℚ
  | [] => 0
  | x :: xs => xs.foldl max x

/-- Fold-based minimum of a list, `0` on the empty list (only used on
non-empty lists, mirroring pandas `.min()` on a non-empty series). -/
def listMin : List ℚ → ℚ
  | [] => 0
  | x :: xs => xs.foldl min x

/-- Running maximum with seed `m`: element `t` is `max` of `m` and the first
`t+1` list elements. -/
def cummaxAux (m : ℚ) : List ℚ → List ℚ
  | [] => []
  | x :: xs => max m x :: cummaxAux (max m x) xs

/-- pandas `.cummax()`: element `t` is the maximum of elements `0..t`. -/
def cummax : List ℚ → List ℚ
  | [] => []
  | x :: xs => cummaxAux x (x :: xs)

/-- The `'pnl'` column read of an EXIT trade row (every EXIT record carries
`some pnl`; ENTRY records have no such key). -/
def tradePnl (t : TradeRecord) : ℚ := t.pnl.getD 0

/-- `exit_trades = trades_df[trades_df['type'] == 'EXIT']` in
`_calculate_statistics`. -/
def exitTradesOf (trades : List TradeRecord) : List TradeRecord :=
  trades.filter fun t => t.rtype = "EXIT"

/-- `winning_trades = exit_trades[exit_trades['pnl'] > 0]`. -/
def winningOf (trades : List TradeRecord) : List TradeRecord :=
  (exitTradesOf trades).filter fun t => 0 < tradePnl t

/-- `losing_trades = exit_trades[exit_trades['pnl'] < 0]`. -/
def losingOf (trades : List TradeRecord) : List TradeRecord :=
  (exitTradesOf trades).filter fun t => tradePnl t < 0

/-- The `equity` column of the equity-curve dataframe. -/
def equitiesOf (equity_curve : List EquityPoint) : List ℚ :=
  equity_curve.map fun ep => ep.equity

/-- `equity_df['peak'] = equity_df['equity'].cummax()`. -/
def peaksOf (equity_curve : List EquityPoint) : List ℚ :=
  cummax (equitiesOf equity_curve)

/-- `equity_df['drawdown'] = equity_df['equity'] - equity_df['peak']`. -/
def drawdownsOf (equity_curve : List EquityPoint) : List ℚ :=
  List.zipWith (fun e p => e - p) (equitiesOf equity_curve) (peaksOf equity_curve)

/-- `equity_df['drawdown_pct'] = (drawdown / peak) * 100`. -/
def drawdownPctsOf (equity_curve : List EquityPoint) : List ℚ :=
  List.zipWith (fun d p => d / p * 100) (drawdownsOf equity_curve)
    (peaksOf equity_curve)

/-- The summary produced by `Backtester._calculate_statistics` (minus the
two square-root-valued ratio fields, see the file header). -/
structure Stats where
  final_balance : ℚ
  total_return : ℚ
  total_return_pct : ℚ
  total_trades : ℕ
  winning_trades : ℕ
  losing_trades : ℕ
  win_rate : ℚ
  profit_factor : ℚ
  max_drawdown : ℚ
  max_drawdown_pct : ℚ
  average_win : ℚ
  average_loss : ℚ
  largest_win : ℚ
  largest_loss : ℚ
  total_fees : ℚ
  deriving DecidableEq, Repr

/-- `Backtester._empty_statistics()`. -/
def emptyStats (initial_capital : ℚ) : Stats :=
  { final_balance := initial_capital, total_return := 0, total_return_pct := 0
    total_trades := 0, winning_trades := 0, losing_trades := 0, win_rate := 0
    profit_factor := 0, max_drawdown := 0, max_drawdown_pct := 0
    average_win := 0, average_loss := 0, largest_win := 0, largest_loss := 0
    total_fees := 0 }

/-- `Backtester._calculate_statistics()`.  The source's
`if not exit_trades.empty` else-branch assigns literal zeros; when the EXIT
filter is empty the guarded expressions below produce exactly those zeros,
so the two shapes coincide and the branch is folded into the guards. -/
def calcStatistics (initial_capital : ℚ) (trades : List TradeRecord)
    (equity_curve : List EquityPoint) : Stats :=
  if trades = [] then emptyStats initial_capital else
  let final_balance :=
    match equity_curve.getLast? with
    | some ep => ep.balance
    | none => initial_capital
  let total_return := final_balance - initial_capital
  let total_return_pct := total_return / initial_capital * 100
  let exit_trades := exitTradesOf trades
  let winning := winningOf trades
  let losing := losingOf trades
  let total_trades := exit_trades.length
  let win_count := winning.length
  let loss_count := losing.length
  let win_rate :=
    if total_trades > 0 then ((win_count : ℚ) / (total_trades : ℚ)) * 100 else 0
  let total_profit := if winning ≠ [] then (winning.map tradePnl).sum else 0
  let total_loss := if losing ≠ [] then |(losing.map tradePnl).sum| else 0
  let profit_factor := if total_loss > 0 then total_profit / total_loss else 0
  let average_win :=
    if winning ≠ [] then (winning.map tradePnl).sum / (win_count : ℚ) else 0
  let average_loss :=
    if losing ≠ [] then (losing.map tradePnl).sum / (loss_count : ℚ) else 0
  let largest_win := if winning ≠ [] then listMax (winning.map tradePnl) else 0
  let largest_loss := if losing ≠ [] then listMin (losing.map tradePnl) else 0
  let equities := equitiesOf equity_curve
  let dds := drawdownsOf equity_curve
  let ddpcts := drawdownPctsOf equity_curve
  let max_drawdown := if equities ≠ [] then listMin dds else 0
  let max_dd_pct := if equities ≠ [] then listMin ddpcts else 0
  let total_fees := (trades.map fun t => t.commission).sum
  { final_balance := final_balance
    total_return := total_return
    total_return_pct := total_return_pct
    total_trades := total_trades
    winning_trades := win_count
    losing_trades := loss_count
    win_rate := win_rate
    profit_factor := profit_factor
    max_drawdown := max_drawdown
    max_drawdown_pct := |max_dd_pct|
    average_win := average_win
    average_loss := average_loss
    largest_win := largest_win
    largest_loss := largest_loss
    total_fees := total_fees }

/-- Accumulator of the drawdown loop in
`BenchmarkComparator.calculate_buy_and_hold`. -/
structure BHState where
  peak_price : ℚ
  max_dd : ℚ
  max_dd_duration : ℕ
  current_dd_duration : ℕ
  deriving DecidableEq, Repr

/-- One iteration of the `for price in prices` drawdown loop of
`calculate_buy_and_hold`. -/
def bhStep (st : BHState) (price : ℚ) : BHState :=
  if price > st.peak_price then
    { st with peak_price := price, current_dd_duration := 0 }
  else
    let dd := (st.peak_price - price) / st.peak_price
    let cur := st.current_dd_duration + 1
    { peak_price := st.peak_price
      max_dd := max st.max_dd dd
      max_dd_duration := max st.max_dd_duration cur
      current_dd_duration := cur }

/-- The dict returned by `calculate_buy_and_hold` (its `sharpe_ratio` key is
square-root-valued and not modelled, see the file header). -/
structure BuyHoldResult where
  initial_capital : ℚ
  final_value : ℚ
  total_return : ℚ
  total_return_pct : ℚ
  max_drawdown_pct : ℚ
  max_drawdown_duration_hours : ℕ
  btc_amount : ℚ
  start_price : ℚ
  end_price : ℚ
  deriving DecidableEq, Repr

/-- `BenchmarkComparator.calculate_buy_and_hold(df, initial_capital,
commission_rate)`; returns `none` for an empty dataframe (the source
returns `{}`). -/
def calculateBuyAndHold (df : List Bar) (initial_capital : ℚ)
    (commission_rate : ℚ) : Option BuyHoldResult :=
  match df.head?, df.getLast? with
  | some b0, some bl =>
    let start_price := b0.close
    let end_price := bl.close
    let btc_amount := initial_capital * (1 - commission_rate) / start_price
    let final_value := btc_amount * end_price * (1 - commission_rate)
    let total_return := final_value - initial_capital
    let total_return_pct := total_return / initial_capital * 100
    let prices := df.map fun b => b.close
    let dd := prices.foldl bhStep
      { peak_price := start_price, max_dd := 0, max_dd_duration := 0
        current_dd_duration := 0 }
    some
      { initial_capital := initial_capital
        final_value := final_value
        total_return := total_return
        total_return_pct := total_return_pct
        max_drawdown_pct := dd.max_dd * 100
        max_drawdown_duration_hours := dd.max_dd_duration
        btc_amount := btc_amount
        start_price := start_price
        end_price := end_price }
  | _, _ => none

/-- The fields of a strategy result `summary` dict that
`compare_with_strategy` reads. -/
structure StrategySummaryView where
  total_return_pct : ℚ
  sharpe_ratio : ℚ
  max_drawdown_pct : ℚ
  total_trades : ℕ
  win_rate : ℚ
  deriving DecidableEq, Repr

/-- The fields of a `buy_hold_result` dict that `compare_with_strategy`
reads. -/
structure BenchView where
  total_return_pct : ℚ
  sharpe_ratio : ℚ
  max_drawdown_pct : ℚ
  deriving DecidableEq, Repr

/-- The comparison dict of `compare_with_strategy` (the two echoed
sub-dicts are the inputs themselves and are not repeated here). -/
structure CompareResult where
  strategy_beats_buy_hold : Bool
  return_difference_pct : ℚ
  sharpe_ratio_difference : ℚ
  drawdown_difference_pct : ℚ
  deriving DecidableEq, Repr

/-- `BenchmarkComparator.compare_with_strategy(strategy_result,
buy_hold_result)` on the fields it reads. -/
def compareWithStrategy (s : StrategySummaryView) (b : BenchView) :
    CompareResult :=
  let return_diff := s.total_return_pct - b.total_return_pct
  let sharpe_diff := s.sharpe_ratio - b.sharpe_ratio
  let dd_diff := s.max_drawdown_pct - b.max_drawdown_pct
  { strategy_beats_buy_hold := decide (return_diff > 0) && decide (sharpe_diff > 0)
    return_difference_pct := return_diff
    sharpe_ratio_difference := sharpe_diff
    drawdown_difference_pct := dd_diff }

/-- Length of the longest run of consecutive `true`s, by the usual
(current run, best run) accumulator pair. -/
def longestRunAux (cur best : ℕ) : List Bool → ℕ
  | [] => best
  | b :: bs =>
      if b then longestRunAux (cur + 1) (max best (cur + 1)) bs
      else longestRunAux 0 best bs

/-- Length of the longest run of consecutive `true`s in a boolean list. -/
def longestRun (l : List Bool) : ℕ := longestRunAux 0 0 l

/-- Per-bar flags of the benchmark drawdown loop: bar `i` is flagged iff its
close does not strictly exceed the running peak of the closes of the bars
before it (the seed is the first close, so bar 0 is always flagged). -/
def ddFlags (peak : ℚ) : List ℚ → List Bool
  | [] => []
  | p :: ps => if p > peak then false :: ddFlags p ps else true :: ddFlags peak ps

/-- Rendition of the spec's words for the benchmark drawdown duration: bar
`i` counts iff its close is strictly below the running peak
`max(close[0..i])` of close prices.  Stated from the spec sentence, for
comparison with the source-derived computation. -/
def specBelowFlags (peak : ℚ) : List ℚ → List Bool
  | [] => []
  | p :: ps => decide (p < max peak p) :: specBelowFlags (max peak p) ps

/-- The spec-worded duration: length of the longest consecutive run of bars
whose close is strictly below the running peak of close prices. -/
def specStrictBelowDuration (prices : List ℚ) : ℕ :=
  match prices with
  | [] => 0
  | p :: _ => longestRun (specBelowFlags p prices)

/-- Slippage disabled: `_apply_slippage` passes the raw price through. -/
def noSlippage : SlippageConfig :=
  { enabled := false, type := "percentage", percentage := 0, amount := 0 }

/-- Percentage commission with both fee rates zero. -/
def zeroCommission : CommissionConfig :=
  { type := "percentage", maker_fee := 0, taker_fee := 0, fixed_fee := 0 }

/-- The spec §8 example position: LONG entered at 100, size 1. -/
def longAt100 : Position :=
  { side := Side.LONG, entry_price := 100, size := 1, entry_time := 0
    stop_loss := none, take_profit := none }

/-- The spec §8 example position: SHORT entered at 100, size 1. -/
def shortAt100 : Position := { longAt100 with side := Side.SHORT }

/-- The §8 drawdown example: one EXIT trade so statistics are computed. -/
def ddExampleTrade : TradeRecord :=
  { timestamp := 3, rtype := "EXIT", side := "SELL", price := 110, size := 1
    value := 110, commission := 0, pnl := some 10, balance_before := 100
    balance_after := 110 }

/-- The §8 drawdown example equity sequence [100, 120, 90, 110]. -/
def ddExampleEquity : List EquityPoint :=
  [ { timestamp := 0, balance := 100, equity := 100, price := 0 }
  , { timestamp := 1, balance := 100, equity := 120, price := 0 }
  , { timestamp := 2, balance := 100, equity := 90, price := 0 }
  , { timestamp := 3, balance := 100, equity := 110, price := 0 } ]

/-- A single 100-close bar, for the C7 counterexample. -/
def c7Bar : Bar :=
  { timestamp := 0, open_p := 100, high := 100, low := 100, close := 100
    volume := 1, atr := none }

/-- Second bar of the C10 witness run. -/
def bar110 : Bar :=
  { timestamp := 1, open_p := 110, high := 110, low := 110, close := 110
    volume := 1, atr := none }

/-- A strategy that always returns HOLD. -/
def holdStrategy : Strategy := fun _ _ _ => Signal.HOLD

/-- A risk model that always sizes 0 (no trade is ever taken). -/
def zeroRisk : RiskModel :=
  { stop_loss := fun _ _ _ => none
    position_size := fun _ _ _ _ => 0
    take_profit := fun _ _ _ => none }

/-- A strategy that buys on the first bar and then holds, for the C10
witness run in which a position survives to the end. -/
def buyOnceStrategy : Strategy := fun hist _ _ =>
  if hist.length = 1 then Signal.BUY else Signal.HOLD

/-- A risk model with constant size 1 and no stop or target. -/
def unitRisk : RiskModel :=
  { stop_loss := fun _ _ _ => none
    position_size := fun _ _ _ _ => 1
    take_profit := fun _ _ _ => none }

/-- The forced end-of-run close of `run_backtest`: the still-open position
is closed at the final bar's close, against the loop's final balance. -/
def forcedClose (slip : SlippageConfig) (comm : CommissionConfig)
    (risk : RiskModel) (strat : Strategy) (cap : ℚ) (df : List Bar)
    (pos : Position) (hne : df ≠ []) : CloseResult :=
  closePosition slip comm pos (df.getLast hne).close (df.getLast hne).timestamp
    (runLoop slip comm risk strat cap df).balance

/-- Each EXIT trade lands in exactly one of the win / loss / zero-pnl
buckets, so the three filtered counts partition the EXIT count. -/
theorem pnl_buckets_partition (l : List TradeRecord) :
    (l.filter fun t => 0 < tradePnl t).length
      + (l.filter fun t => tradePnl t < 0).length
      + (l.filter fun t => tradePnl t = 0).length = l.length := by
  induction l with
  | nil => simp
  | cons t l ih =>
    rcases lt_trichotomy (tradePnl t) 0 with h | h | h
    · have h1 : ¬ 0 < tradePnl t := by linarith
      have h3 : ¬ tradePnl t = 0 := ne_of_lt h
      simp [List.filter_cons, h, h1, h3]
      omega
    · have h1 : ¬ 0 < tradePnl t := by simp [h]
      have h2 : ¬ tradePnl t < 0 := by simp [h]
      simp [List.filter_cons, h, h1, h2]
      omega
    · have h2 : ¬ tradePnl t < 0 := by linarith
      have h3 : ¬ tradePnl t = 0 := (ne_of_gt h)
      simp [List.filter_cons, h, h2, h3]
      omega

/-- A non-empty list of negative rationals has a negative sum. -/
theorem sum_neg_of_all_neg (l : List ℚ) (hl : l ≠ []) (h : ∀ x ∈ l, x < 0) :
    l.sum < 0 := by
  induction l with
  | nil => exact absurd rfl hl
  | cons x l ih =>
    rcases List.eq_nil_or_concat l with h0 | _
    · subst h0; simpa using h x (by simp)
    · have hx := h x (by simp)
      have hs : l.sum < 0 := by
        apply ih
        · rintro rfl; simp_all
        · intro y hy; exact h y (by simp [hy])
      simp only [List.sum_cons]
      linarith

/-- Seeds only grow under a max-fold. -/
theorem foldl_max_mono (l : List ℚ) (b c : ℚ) (h : b ≤ c) :
    l.foldl max b ≤ l.foldl max c := by
  induction l generalizing b c with
  | nil => simpa using h
  | cons x xs ih =>
    simp only [List.foldl_cons]
    exact ih _ _ (max_le_max_right x h)

/-- The seed bounds a max-fold from below. -/
theorem le_foldl_max (l : List ℚ) (b : ℚ) : b ≤ l.foldl max b := by
  induction l generalizing b with
  | nil => simp
  | cons x xs ih =>
    simp only [List.foldl_cons]
    exact le_trans (le_max_left b x) (ih _)

/-- `listMax` is below any seeded max-fold of the same non-empty list. -/
theorem listMax_le_foldl_max (l : List ℚ) (b : ℚ) (h : l ≠ []) :
    listMax l ≤ l.foldl max b := by
  cases l with
  | nil => exact absurd rfl h
  | cons y ys =>
    simp only [listMax, List.foldl_cons]
    exact foldl_max_mono ys y (max b y) (le_max_right b y)

/-- Element `t` bounds the maximum of the prefix `0..t` from below. -/
theorem getD_le_listMax_take (l : List ℚ) (t : ℕ) (ht : t < l.length) :
    l.getD t 0 ≤ listMax (l.take (t + 1)) := by
  induction l generalizing t with
  | nil => simp at ht
  | cons x xs ih =>
    cases t with
    | zero => simp [listMax]
    | succ t =>
      have ht2 : t < xs.length := by simpa using ht
      have h1 := ih t ht2
      have h2 : listMax (xs.take (t + 1)) ≤ (xs.take (t + 1)).foldl max x := by
        apply listMax_le_foldl_max
        have : 0 < (xs.take (t + 1)).length := by
          simp [List.length_take]
          omega
        intro hc
        simp [hc] at this
      calc (x :: xs).getD (t + 1) 0 = xs.getD t 0 := by simp
        _ ≤ listMax (xs.take (t + 1)) := h1
        _ ≤ (xs.take (t + 1)).foldl max x := h2
        _ = listMax ((x :: xs).take (t + 1 + 1)) := by simp [listMax, List.take_succ_cons]

/-- `cummaxAux` preserves length. -/
theorem cummaxAux_length (l : List ℚ) (m : ℚ) :
    (cummaxAux m l).length = l.length := by
  induction l generalizing m with
  | nil => rfl
  | cons x xs ih => simp [cummaxAux, ih]

/-- `cummax` preserves length. -/
theorem cummax_length (l : List ℚ) : (cummax l).length = l.length := by
  cases l with
  | nil => rfl
  | cons x xs => simp [cummax, cummaxAux_length]

/-- `cummaxAux m` at index `t` is the max-fold of the first `t+1` elements
seeded with `m`. -/
theorem cummaxAux_getElem (l : List ℚ) (m : ℚ) (t : ℕ) (ht : t < l.length) :
    (cummaxAux m l)[t]? = some ((l.take (t + 1)).foldl max m) := by
  induction l generalizing m t with
  | nil => simp at ht
  | cons x xs ih =>
    cases t with
    | zero => simp [cummaxAux]
    | succ t =>
      have ht2 : t < xs.length := by simpa using ht
      simp only [cummaxAux, List.take_succ_cons, List.foldl_cons]
      simpa using ih (max m x) t ht2

/-- pandas `.cummax()` correctness: element `t` of the running-max column is
the maximum of elements `0..t` of the input. -/
theorem cummax_getElem (l : List ℚ) (t : ℕ) (ht : t < l.length) :
    (cummax l)[t]? = some (listMax (l.take (t + 1))) := by
  cases l with
  | nil => simp at ht
  | cons x xs =>
    rw [cummax, cummaxAux_getElem _ _ _ ht]
    cases t with
    | zero => simp [listMax]
    | succ t => simp [listMax, List.take_succ_cons]

/-- The benchmark drawdown fold computes the longest run of flagged bars:
the interleaved (peak, current, best) loop agrees with `longestRunAux`
over the per-bar flags. -/
theorem bh_foldl_duration (ps : List ℚ) (peak mdd : ℚ) (best cur : ℕ) :
    (ps.foldl bhStep
      { peak_price := peak, max_dd := mdd, max_dd_duration := best
        current_dd_duration := cur }).max_dd_duration
      = longestRunAux cur best (ddFlags peak ps) := by
  induction ps generalizing peak mdd best cur with
  | nil => rfl
  | cons p ps ih =>
    by_cases h : p > peak
    · rw [show ddFlags peak (p :: ps) = false :: ddFlags p ps from by
        simp [ddFlags, h]]
      rw [show longestRunAux cur best (false :: ddFlags p ps)
          = longestRunAux 0 best (ddFlags p ps) from by simp [longestRunAux]]
      rw [List.foldl_cons]
      rw [show bhStep ⟨peak, mdd, best, cur⟩ p = ⟨p, mdd, best, 0⟩ from by
        simp [bhStep, h]]
      exact ih p mdd best 0
    · rw [show ddFlags peak (p :: ps) = true :: ddFlags peak ps from by
        simp [ddFlags, h]]
      rw [show longestRunAux cur best (true :: ddFlags peak ps)
          = longestRunAux (cur + 1) (max best (cur + 1)) (ddFlags peak ps) from by
        simp [longestRunAux]]
      rw [List.foldl_cons]
      rw [show bhStep ⟨peak, mdd, best, cur⟩ p
          = ⟨peak, max mdd ((peak - p) / peak), max best (cur + 1), cur + 1⟩ from by
        simp [bhStep, h]]
      exact ih peak _ _ _

/-- The per-bar flag of the benchmark drawdown loop: bar `i` is flagged iff
its close does not strictly exceed the max-fold of the closes before it
(seeded with the first close). -/
theorem ddFlags_getElem (ps : List ℚ) (peak : ℚ) (i : ℕ) (hi : i < ps.length) :
    (ddFlags peak ps)[i]?
      = some (decide (ps.getD i 0 ≤ (ps.take i).foldl max peak)) := by
  induction ps generalizing peak i with
  | nil => simp at hi
  | cons p ps ih
  =>
    by_cases h : p > peak
    · cases i with
      | zero =>
        rw [show ddFlags peak (p :: ps) = false :: ddFlags p ps from by
          simp [ddFlags, h]]
        simp [decide_eq_false (not_le.mpr h)]
      | succ i =>
        have hi2 : i < ps.length := by simpa using hi
        rw [show ddFlags peak (p :: ps) = false :: ddFlags p ps from by
          simp [ddFlags, h]]
        have hmax : max peak p = p := max_eq_right (le_of_lt h)
        simp only [List.getElem?_cons_succ, List.getD_cons_succ,
          List.take_succ_cons, List.foldl_cons, hmax]
        exact ih p i hi2
    · cases i with
      | zero =>
        rw [show ddFlags peak (p :: ps) = true :: ddFlags peak ps from by
          simp [ddFlags, h]]
        simp [decide_eq_true (not_lt.mp h)]
      | succ i =>
        have hi2 : i < ps.length := by simpa using hi
        rw [show ddFlags peak (p :: ps) = true :: ddFlags peak ps from by
          simp [ddFlags, h]]
        have hmax : max peak p = peak := max_eq_left (not_lt.mp h)
        simp only [List.getElem?_cons_succ, List.getD_cons_succ,
          List.take_succ_cons, List.foldl_cons, hmax]
        exact ih peak i hi2

/-- A valid loop iteration records exactly the prefix `df.take (i+1)` as the
history passed to the strategy. -/
theorem processBar_histories (slip : SlippageConfig) (comm : CommissionConfig)
    (risk : RiskModel) (strat : Strategy) (df : List Bar) (st : RunState)
    (i : ℕ) (b : Bar) (hb : df[i]? = some b) :
    (processBar slip comm risk strat df st i).histories
      = st.histories ++ [df.take (i + 1)] := by
  simp only [processBar, hb]

/-- Folding the loop body over valid indices appends one recorded history
per index, in order. -/
theorem foldl_processBar_histories (slip : SlippageConfig)
    (comm : CommissionConfig) (risk : RiskModel) (strat : Strategy)
    (df : List Bar) (l : List ℕ) (st : RunState)
    (hl : ∀ k ∈ l, k < df.length) :
    (l.foldl (processBar slip comm risk strat df) st).histories
      = st.histories ++ (l.map fun k => df.take (k + 1)) := by
  induction l generalizing st with
  | nil => simp
  | cons k l ih =>
    have hk : k < df.length := hl k (by simp)
    rw [List.foldl_cons,
      ih _ (fun j hj => hl j (by simp [hj])),
      processBar_histories slip comm risk strat df st k _
        (List.getElem?_eq_getElem hk)]
    simp

/-- The histories recorded by a whole run are exactly the prefixes
`df.take (i+1)`, indexed by bar. -/
theorem runLoop_histories (slip : SlippageConfig) (comm : CommissionConfig)
    (risk : RiskModel) (strat : Strategy) (cap : ℚ) (df : List Bar) :
    (runLoop slip comm risk strat cap df).histories
      = (List.range df.length).map fun k => df.take (k + 1) := by
  rw [runLoop, foldl_processBar_histories]
  · simp [initState]
  · intro k hk
    exact List.mem_range.mp hk

/-- Each valid loop iteration ends with the last equity point carrying the
iteration's final balance. -/
theorem processBar_equity_last (slip : SlippageConfig) (comm : CommissionConfig)
    (risk : RiskModel) (strat : Strategy) (df : List Bar) (st : RunState)
    (i : ℕ) (b : Bar) (hb : df[i]? = some b) :
    ((processBar slip comm risk strat df st i).equity_curve.getLast?).map
        (fun ep => ep.balance)
      = some (processBar slip comm risk strat df st i).balance := by
  simp only [processBar, hb]
  simp

/-- After a non-empty run the last equity point's balance is the loop's
final balance. -/
theorem runLoop_equity_last (slip : SlippageConfig) (comm : CommissionConfig)
    (risk : RiskModel) (strat : Strategy) (cap : ℚ) (df : List Bar)
    (hne : df ≠ []) :
    ((runLoop slip comm risk strat cap df).equity_curve.getLast?).map
        (fun ep => ep.balance)
      = some (runLoop slip comm risk strat cap df).balance := by
  obtain ⟨n, hn⟩ : ∃ n, df.length = n + 1 := by
    cases df with
    | nil => exact absurd rfl hne
    | cons b bs => exact ⟨bs.length, rfl⟩
  rw [runLoop, hn, List.range_succ, List.foldl_append, List.foldl_cons,
    List.foldl_nil]
  exact processBar_equity_last slip comm risk strat df _ n _
    (List.getElem?_eq_getElem (by omega))

/-- C1: the history handed to `generate_signal` at step `i` is exactly
`bars[0..i]`: it has `i+1` elements, agrees with the input on indices
`0..i`, and contains nothing at any index past `i`. -/
theorem C1_no_lookahead (slip : SlippageConfig) (comm : CommissionConfig)
    (risk : RiskModel) (strat : Strategy) (cap : ℚ) (df : List Bar) (i : ℕ)
    (hi : i < df.length) :
    (runLoop slip comm risk strat cap df).histories[i]? = some (df.take (i + 1))
    ∧ (df.take (i + 1)).length = i + 1
    ∧ (∀ j, j ≤ i → (df.take (i + 1))[j]? = df[j]?)
    ∧ (∀ j, i < j → (df.take (i + 1))[j]? = none) := by
  refine ⟨?_, ?_, ?_, ?_⟩
  · rw [runLoop_histories]
    simp [List.getElem?_range, hi]
  · simp [List.length_take]
    omega
  · intro j hj
    rw [List.getElem?_take]
    rw [if_pos (by omega)]
  · intro j hj
    apply List.getElem?_eq_none
    simp [List.length_take]
    omega

theorem C1_no_lookahead_witness :
    0 < ([c7Bar] : List Bar).length
    ∧ ((runLoop noSlippage zeroCommission zeroRisk holdStrategy 1000000
          [c7Bar]).histories[0]? = some ([c7Bar].take (0 + 1))
      ∧ (([c7Bar] : List Bar).take (0 + 1)).length = 0 + 1
      ∧ (∀ j, j ≤ 0 → (([c7Bar] : List Bar).take (0 + 1))[j]? = ([c7Bar] : List Bar)[j]?)
      ∧ (∀ j, 0 < j → (([c7Bar] : List Bar).take (0 + 1))[j]? = none)) :=
  ⟨by simp,
    C1_no_lookahead noSlippage zeroCommission zeroRisk holdStrategy 1000000
      [c7Bar] 0 (by simp)⟩

/-- C2: closing a position prices the exit through slippage, signs the pnl
by side, credits `pnl - commission`, destroys the position, and yields
`+10` / `-10` on the spec's LONG/SHORT 100 ->110 examples with zero costs. -/
theorem C2_exit_economics (slip : SlippageConfig) (comm : CommissionConfig)
    (risk : RiskModel) (pos : Position) (price : ℚ) (ts : ℕ) (balance : ℚ)
    (atr : Option ℚ) :
    (closePosition slip comm pos price ts balance).trade.price
      = applySlippage slip price
          (if pos.side = Side.LONG then Signal.SELL else Signal.BUY)
    ∧ (closePosition slip comm pos price ts balance).trade.pnl
      = some (if pos.side = Side.LONG
          then ((closePosition slip comm pos price ts balance).trade.price
                  - pos.entry_price) * pos.size
          else (pos.entry_price
                  - (closePosition slip comm pos price ts balance).trade.price)
                * pos.size)
    ∧ (closePosition slip comm pos price ts balance).new_balance
      = balance + tradePnl (closePosition slip comm pos price ts balance).trade
          - calculateCommission comm
              (pos.size * (closePosition slip comm pos price ts balance).trade.price)
              false
    ∧ (closePosition slip comm pos price ts balance).trade.balance_after
      = (closePosition slip comm pos price ts balance).new_balance
    ∧ (executeTrade slip comm risk Signal.CLOSE_LONG price ts balance (some pos) atr).position_closed = true
    ∧ (executeTrade slip comm risk Signal.CLOSE_LONG price ts balance (some pos) atr).new_position = none
    ∧ (executeTrade slip comm risk Signal.CLOSE_LONG price ts balance (some pos) atr).new_balance
        = (closePosition slip comm pos price ts balance).new_balance
    ∧ (executeTrade slip comm risk Signal.CLOSE_SHORT price ts balance (some pos) atr).position_closed = true
    ∧ (executeTrade slip comm risk Signal.CLOSE_SHORT price ts balance (some pos) atr).new_position = none
    ∧ (executeTrade slip comm risk Signal.CLOSE_SHORT price ts balance (some pos) atr).new_balance
        = (closePosition slip comm pos price ts balance).new_balance
    ∧ (executeTrade slip comm risk Signal.CLOSE_ALL price ts balance (some pos) atr).position_closed = true
    ∧ (executeTrade slip comm risk Signal.CLOSE_ALL price ts balance (some pos) atr).new_position = none
    ∧ (executeTrade slip comm risk Signal.CLOSE_ALL price ts balance (some pos) atr).new_balance
        = (closePosition slip comm pos price ts balance).new_balance
    ∧ (closePosition noSlippage zeroCommission longAt100 110 1 0).trade.pnl = some 10
    ∧ (closePosition noSlippage zeroCommission shortAt100 110 1 0).trade.pnl = some (-10) := by
  cases hside : pos.side <;>
    simp [closePosition, executeTrade, applySlippage, calculateCommission,
      tradePnl, hside, noSlippage, zeroCommission, longAt100, shortAt100] <;>
    norm_num

/-- C3: percentage commission uses the maker rate on entry notional and the
taker rate on exit notional; fixed commission is the flat fee on both. -/
theorem C3_asymmetric_commission (slip : SlippageConfig) (risk : RiskModel)
    (mf tf ff v price balance : ℚ) (ts : ℕ) (pos : Position) (atr : Option ℚ)
    (signal : Signal) :
    calculateCommission ⟨"percentage", mf, tf, ff⟩ v true = v * mf
    ∧ calculateCommission ⟨"percentage", mf, tf, ff⟩ v false = v * tf
    ∧ calculateCommission ⟨"fixed", mf, tf, ff⟩ v true = ff
    ∧ calculateCommission ⟨"fixed", mf, tf, ff⟩ v false = ff
    ∧ ((executeTrade slip ⟨"percentage", mf, tf, ff⟩ risk signal price ts balance none atr).trade.map
          fun t => t.commission)
      = ((executeTrade slip ⟨"percentage", mf, tf, ff⟩ risk signal price ts balance none atr).trade.map
          fun t => t.size * t.price * mf)
    ∧ ((executeTrade slip ⟨"fixed", mf, tf, ff⟩ risk signal price ts balance none atr).trade.map
          fun t => t.commission)
      = ((executeTrade slip ⟨"fixed", mf, tf, ff⟩ risk signal price ts balance none atr).trade.map
          fun _ => ff)
    ∧ (closePosition slip ⟨"percentage", mf, tf, ff⟩ pos price ts balance).trade.commission
      = pos.size * (closePosition slip ⟨"percentage", mf, tf, ff⟩ pos price ts balance).trade.price * tf
    ∧ (closePosition slip ⟨"fixed", mf, tf, ff⟩ pos price ts balance).trade.commission = ff := by
  cases signal <;>
    simp [closePosition, executeTrade, applySlippage, calculateCommission] <;>
    split <;> simp [mul_comm, mul_assoc, mul_left_comm]

/-- C4: slippage formulas per mode and signal, and adversity of the slipped
price for non-negative slippage parameters and price. -/
theorem C4_adverse_slippage (pct amt price : ℚ) (ty : String)
    (hpct : 0 ≤ pct) (hamt : 0 ≤ amt) (hpr : 0 ≤ price) :
    applySlippage ⟨true, "percentage", pct, amt⟩ price Signal.BUY = price * (1 + pct)
    ∧ applySlippage ⟨true, "percentage", pct, amt⟩ price Signal.CLOSE_SHORT = price * (1 + pct)
    ∧ applySlippage ⟨true, "percentage", pct, amt⟩ price Signal.SELL = price * (1 - pct)
    ∧ applySlippage ⟨true, "percentage", pct, amt⟩ price Signal.CLOSE_LONG = price * (1 - pct)
    ∧ applySlippage ⟨true, "fixed", pct, amt⟩ price Signal.BUY = price + amt
    ∧ applySlippage ⟨true, "fixed", pct, amt⟩ price Signal.CLOSE_SHORT = price + amt
    ∧ applySlippage ⟨true, "fixed", pct, amt⟩ price Signal.SELL = price - amt
    ∧ applySlippage ⟨true, "fixed", pct, amt⟩ price Signal.CLOSE_LONG = price - amt
    ∧ price ≤ applySlippage ⟨true, ty, pct, amt⟩ price Signal.BUY
    ∧ price ≤ applySlippage ⟨true, ty, pct, amt⟩ price Signal.CLOSE_SHORT
    ∧ applySlippage ⟨true, ty, pct, amt⟩ price Signal.SELL ≤ price
    ∧ applySlippage ⟨true, ty, pct, amt⟩ price Signal.CLOSE_LONG ≤ price := by
  have hbuy : ∀ s : Signal, s = Signal.BUY ∨ s = Signal.CLOSE_SHORT →
      price ≤ applySlippage ⟨true, ty, pct, amt⟩ price s := by
    intro s hs
    by_cases hp : ty = "percentage"
    · rcases hs with h | h <;> subst h <;>
        simp [applySlippage, hp] <;> nlinarith [mul_nonneg hpr hpct]
    · by_cases hf : ty = "fixed"
      · rcases hs with h | h <;> subst h <;>
          simp [applySlippage, hp, hf] <;> linarith
      · rcases hs with h | h <;> subst h <;> simp [applySlippage, hp, hf]
  have hsell : ∀ s : Signal, s = Signal.SELL ∨ s = Signal.CLOSE_LONG →
      applySlippage ⟨true, ty, pct, amt⟩ price s ≤ price := by
    intro s hs
    by_cases hp : ty = "percentage"
    · rcases hs with h | h <;> subst h <;>
        simp [applySlippage, hp] <;> nlinarith [mul_nonneg hpr hpct]
    · by_cases hf : ty = "fixed"
      · rcases hs with h | h <;> subst h <;>
          simp [applySlippage, hp, hf] <;> linarith
      · rcases hs with h | h <;> subst h <;> simp [applySlippage, hp, hf]
  refine ⟨by simp [applySlippage], by simp [applySlippage], by simp [applySlippage],
    by simp [applySlippage], by simp [applySlippage], by simp [applySlippage],
    by simp [applySlippage], by simp [applySlippage],
    hbuy _ (Or.inl rfl), hbuy _ (Or.inr rfl), hsell _ (Or.inl rfl), hsell _ (Or.inr rfl)⟩

/-- Witness for C4 at `pct = 1/10`, `amt = 2`, `price = 50`, mode string
`"percentage"`. -/
theorem C4_adverse_slippage_witness :
    (0 ≤ (1/10 : ℚ) ∧ 0 ≤ (2 : ℚ) ∧ 0 ≤ (50 : ℚ))
    ∧ (applySlippage ⟨true, "percentage", 1/10, 2⟩ 50 Signal.BUY = 50 * (1 + 1/10)
    ∧ applySlippage ⟨true, "percentage", 1/10, 2⟩ 50 Signal.CLOSE_SHORT = 50 * (1 + 1/10)
    ∧ applySlippage ⟨true, "percentage", 1/10, 2⟩ 50 Signal.SELL = 50 * (1 - 1/10)
    ∧ applySlippage ⟨true, "percentage", 1/10, 2⟩ 50 Signal.CLOSE_LONG = 50 * (1 - 1/10)
    ∧ applySlippage ⟨true, "fixed", 1/10, 2⟩ 50 Signal.BUY = 50 + 2
    ∧ applySlippage ⟨true, "fixed", 1/10, 2⟩ 50 Signal.CLOSE_SHORT = 50 + 2
    ∧ applySlippage ⟨true, "fixed", 1/10, 2⟩ 50 Signal.SELL = 50 - 2
    ∧ applySlippage ⟨true, "fixed", 1/10, 2⟩ 50 Signal.CLOSE_LONG = 50 - 2
    ∧ (50 : ℚ) ≤ applySlippage ⟨true, "percentage", 1/10, 2⟩ 50 Signal.BUY
    ∧ (50 : ℚ) ≤ applySlippage ⟨true, "percentage", 1/10, 2⟩ 50 Signal.CLOSE_SHORT
    ∧ applySlippage ⟨true, "percentage", 1/10, 2⟩ 50 Signal.SELL ≤ 50
    ∧ applySlippage ⟨true, "percentage", 1/10, 2⟩ 50 Signal.CLOSE_LONG ≤ 50) :=
  ⟨⟨by norm_num, by norm_num, by norm_num⟩,
    C4_adverse_slippage (1/10) 2 50 "percentage" (by norm_num) (by norm_num) (by norm_num)⟩

/-- C5: trade statistics count EXIT records only; wins are pnl > 0, losses
pnl < 0, zero-pnl trades count toward the total only; profit factor is
win-sum over |loss-sum| and 0 when no trade lost. -/
theorem C5_exit_trade_statistics (capital : ℚ) (trades : List TradeRecord)
    (equity : List EquityPoint) :
    (calcStatistics capital trades equity).total_trades = (exitTradesOf trades).length
    ∧ (calcStatistics capital trades equity).winning_trades = (winningOf trades).length
    ∧ (calcStatistics capital trades equity).losing_trades = (losingOf trades).length
    ∧ (winningOf trades).length + (losingOf trades).length
        + ((exitTradesOf trades).filter fun t => tradePnl t = 0).length
      = (exitTradesOf trades).length
    ∧ (∀ t2 ∈ winningOf trades, 0 < tradePnl t2)
    ∧ (∀ t2 ∈ losingOf trades, tradePnl t2 < 0)
    ∧ (calcStatistics capital trades equity).profit_factor
      = (if losingOf trades = [] then 0
         else ((winningOf trades).map tradePnl).sum / |((losingOf trades).map tradePnl).sum|)
    ∧ (calcStatistics capital trades equity).average_win
      = (if winningOf trades = [] then 0
         else ((winningOf trades).map tradePnl).sum / ((winningOf trades).length : ℚ))
    ∧ (calcStatistics capital trades equity).average_loss
      = (if losingOf trades = [] then 0
         else ((losingOf trades).map tradePnl).sum / ((losingOf trades).length : ℚ))
    ∧ (calcStatistics capital trades equity).largest_win
      = (if winningOf trades = [] then 0 else listMax ((winningOf trades).map tradePnl))
    ∧ (calcStatistics capital trades equity).largest_loss
      = (if losingOf trades = [] then 0 else listMin ((losingOf trades).map tradePnl)) := by
  have hwin : ∀ t2 ∈ winningOf trades, 0 < tradePnl t2 := by
    intro t2 ht2
    have := List.of_mem_filter ht2
    simpa using this
  have hlose : ∀ t2 ∈ losingOf trades, tradePnl t2 < 0 := by
    intro t2 ht2
    have := List.of_mem_filter ht2
    simpa using this
  by_cases htr : trades = []
  · subst htr
    simp [calcStatistics, emptyStats, exitTradesOf, winningOf, losingOf]
  · have hpf : (calcStatistics capital trades equity).profit_factor
        = (if losingOf trades = [] then 0
           else ((winningOf trades).map tradePnl).sum / |((losingOf trades).map tradePnl).sum|) := by
      simp only [calcStatistics, if_neg htr]
      by_cases hl : losingOf trades = []
      · simp [hl]
      · have hlt : 0 < |((losingOf trades).map tradePnl).sum| := by
          have hs : ((losingOf trades).map tradePnl).sum < 0 := by
            apply sum_neg_of_all_neg
            · simpa using hl
            · intro x hx
              rcases List.mem_map.mp hx with ⟨t2, ht2, rfl⟩
              exact hlose t2 ht2
          exact abs_pos.mpr (ne_of_lt hs)
        have hw : (if winningOf trades ≠ [] then ((winningOf trades).map tradePnl).sum else 0)
            = ((winningOf trades).map tradePnl).sum := by
          by_cases hwe : winningOf trades = [] <;> simp [hwe]
        simp [hl, hlt, hw]
    refine ⟨?_, ?_, ?_, pnl_buckets_partition (exitTradesOf trades),
      hwin, hlose, hpf, ?_, ?_, ?_, ?_⟩
    · simp only [calcStatistics, if_neg htr]
    · simp only [calcStatistics, if_neg htr]
    · simp only [calcStatistics, if_neg htr]
    · simp only [calcStatistics, if_neg htr]
      by_cases hwe : winningOf trades = [] <;> simp [hwe]
    · simp only [calcStatistics, if_neg htr]
      by_cases hle : losingOf trades = [] <;> simp [hle]
    · simp only [calcStatistics, if_neg htr]
      by_cases hwe : winningOf trades = [] <;> simp [hwe]
    · simp only [calcStatistics, if_neg htr]
      by_cases hle : losingOf trades = [] <;> simp [hle]

/-- C6: the drawdown pipeline of `_calculate_statistics`. -/
theorem C6_drawdown (capital : ℚ) (trades : List TradeRecord)
    (ec : List EquityPoint) (t : ℕ)
    (htr : trades ≠ []) (hne : ec ≠ []) (ht : t < ec.length) :
    (peaksOf ec)[t]? = some (listMax ((equitiesOf ec).take (t + 1)))
    ∧ (drawdownsOf ec)[t]?
        = some ((equitiesOf ec).getD t 0 - listMax ((equitiesOf ec).take (t + 1)))
    ∧ (equitiesOf ec).getD t 0 - listMax ((equitiesOf ec).take (t + 1)) ≤ 0
    ∧ (drawdownPctsOf ec)[t]?
        = some (((equitiesOf ec).getD t 0 - listMax ((equitiesOf ec).take (t + 1)))
            / listMax ((equitiesOf ec).take (t + 1)) * 100)
    ∧ (calcStatistics capital trades ec).max_drawdown = listMin (drawdownsOf ec)
    ∧ (calcStatistics capital trades ec).max_drawdown_pct = |listMin (drawdownPctsOf ec)|
    ∧ (calcStatistics 100 [ddExampleTrade] ddExampleEquity).max_drawdown = -30
    ∧ (calcStatistics 100 [ddExampleTrade] ddExampleEquity).max_drawdown_pct = 25 := by
  have hlen : t < (equitiesOf ec).length := by simpa [equitiesOf] using ht
  have hpk : (peaksOf ec)[t]? = some (listMax ((equitiesOf ec).take (t + 1))) := by
    rw [peaksOf]
    exact cummax_getElem _ _ hlen
  have heq : (equitiesOf ec)[t]? = some ((equitiesOf ec).getD t 0) := by
    rw [List.getD_eq_getElem _ _ hlen]
    exact List.getElem?_eq_getElem hlen
  have hdd : (drawdownsOf ec)[t]?
      = some ((equitiesOf ec).getD t 0 - listMax ((equitiesOf ec).take (t + 1))) := by
    rw [drawdownsOf, List.getElem?_zipWith']
    rw [heq]
    rw [hpk]
    rfl
  have hee : equitiesOf ec ≠ [] := by
    simpa [equitiesOf] using hne
  refine ⟨hpk, hdd, ?_, ?_, ?_, ?_, ?_, ?_⟩
  · have := getD_le_listMax_take (equitiesOf ec) t hlen
    linarith
  · rw [drawdownPctsOf, List.getElem?_zipWith']
    rw [hdd]
    rw [hpk]
    rfl
  · simp only [calcStatistics, if_neg htr]
    simp [hee]
  · simp only [calcStatistics, if_neg htr]
    simp [hee]
  · norm_num [calcStatistics, ddExampleTrade, ddExampleEquity, equitiesOf,
      peaksOf, drawdownsOf, drawdownPctsOf, cummax, cummaxAux, listMin,
      listMax, exitTradesOf, winningOf, losingOf, tradePnl, max_def, min_def]
    simp
  · norm_num [calcStatistics, ddExampleTrade, ddExampleEquity, equitiesOf,
      peaksOf, drawdownsOf, drawdownPctsOf, cummax, cummaxAux, listMin,
      listMax, exitTradesOf, winningOf, losingOf, tradePnl, max_def, min_def,
      abs]
    norm_num [List.cons_ne_nil]

theorem C6_drawdown_witness :
    (([ddExampleTrade] : List TradeRecord) ≠ [] ∧ ddExampleEquity ≠ []
        ∧ 2 < ddExampleEquity.length)
    ∧ ((peaksOf ddExampleEquity)[2]?
          = some (listMax ((equitiesOf ddExampleEquity).take (2 + 1)))
      ∧ (drawdownsOf ddExampleEquity)[2]?
          = some ((equitiesOf ddExampleEquity).getD 2 0
              - listMax ((equitiesOf ddExampleEquity).take (2 + 1)))
      ∧ (equitiesOf ddExampleEquity).getD 2 0
          - listMax ((equitiesOf ddExampleEquity).take (2 + 1)) ≤ 0
      ∧ (drawdownPctsOf ddExampleEquity)[2]?
          = some (((equitiesOf ddExampleEquity).getD 2 0
                - listMax ((equitiesOf ddExampleEquity).take (2 + 1)))
              / listMax ((equitiesOf ddExampleEquity).take (2 + 1)) * 100)
      ∧ (calcStatistics 100 [ddExampleTrade] ddExampleEquity).max_drawdown
          = listMin (drawdownsOf ddExampleEquity)
      ∧ (calcStatistics 100 [ddExampleTrade] ddExampleEquity).max_drawdown_pct
          = |listMin (drawdownPctsOf ddExampleEquity)|
      ∧ (calcStatistics 100 [ddExampleTrade] ddExampleEquity).max_drawdown = -30
      ∧ (calcStatistics 100 [ddExampleTrade] ddExampleEquity).max_drawdown_pct = 25) :=
  ⟨⟨by simp, by simp [ddExampleEquity], by simp [ddExampleEquity]⟩,
    C6_drawdown 100 [ddExampleTrade] ddExampleEquity 2 (by simp)
      (by simp [ddExampleEquity]) (by simp [ddExampleEquity])⟩

/-- C7 counterexample: on a one-bar series the source reports drawdown
duration 1 (the first bar ties its own peak and is counted), while the
spec's "strictly below the running peak" run length is 0. -/
theorem C7_counterexample :
    ((calculateBuyAndHold [c7Bar] 1000000 0).map
        fun r => r.max_drawdown_duration_hours) = some 1
    ∧ specStrictBelowDuration [(100 : ℚ)] = 0
    ∧ [c7Bar].map (fun b => b.close) = [(100 : ℚ)]
    ∧ ¬ ((calculateBuyAndHold [c7Bar] 1000000 0).map
          fun r => r.max_drawdown_duration_hours)
        = some (specStrictBelowDuration [(100 : ℚ)]) := by
  refine ⟨rfl, rfl, rfl, fun hcontra => ?_⟩
  have h2 : (1 : ℕ) = 0 := Option.some.inj hcontra
  exact one_ne_zero h2

/-- C7 amended: the reported duration is the longest consecutive run of
bars whose close does not strictly exceed the running peak of earlier
closes (ties count, and the first bar always counts). -/
theorem C7_amended_duration (df : List Bar) (cap rate : ℚ) (hne : df ≠ []) :
    ((calculateBuyAndHold df cap rate).map fun r => r.max_drawdown_duration_hours)
      = some (longestRun (ddFlags ((df.head hne).close) (df.map fun b => b.close)))
    ∧ ∀ i, i < df.length →
        (ddFlags ((df.head hne).close) (df.map fun b => b.close))[i]?
          = some (decide ((df.map fun b => b.close).getD i 0
              ≤ ((df.map fun b => b.close).take i).foldl max ((df.head hne).close))) := by
  constructor
  · cases df with
    | nil => exact absurd rfl hne
    | cons b bs =>
      obtain ⟨bl, hbl⟩ : ∃ bl, (b :: bs).getLast? = some bl :=
        ⟨(b :: bs).getLast (by simp), List.getLast?_eq_getLast _ (by simp)⟩
      simp only [calculateBuyAndHold, List.head?_cons, hbl, Option.map_some]
      simp only [List.head_cons, longestRun]
      exact congrArg some (bh_foldl_duration _ _ _ _ _)
  · intro i hi
    exact ddFlags_getElem _ _ i (by simpa using hi)

theorem C7_amended_duration_witness :
    ([c7Bar] : List Bar) ≠ []
    ∧ (((calculateBuyAndHold [c7Bar] 1000000 0).map
          fun r => r.max_drawdown_duration_hours)
        = some (longestRun (ddFlags ((([c7Bar] : List Bar).head
            (List.cons_ne_nil c7Bar [])).close) ([c7Bar].map fun b => b.close)))
      ∧ ∀ i, i < ([c7Bar] : List Bar).length →
          (ddFlags ((([c7Bar] : List Bar).head (List.cons_ne_nil c7Bar [])).close)
              ([c7Bar].map fun b => b.close))[i]?
            = some (decide (([c7Bar].map fun b => b.close).getD i 0
                ≤ (([c7Bar].map fun b => b.close).take i).foldl max
                    ((([c7Bar] : List Bar).head (List.cons_ne_nil c7Bar [])).close)))) :=
  ⟨List.cons_ne_nil c7Bar [],
    C7_amended_duration [c7Bar] 1000000 0 (List.cons_ne_nil c7Bar [])⟩

/-- C8: `outperforms` is the conjunction of a positive return delta and a
positive Sharpe delta, and the spec's 10%/0.5 vs 15%/0.3 example fails. -/
theorem C8_outperforms_conjunction (s : StrategySummaryView) (b : BenchView) :
    ((compareWithStrategy s b).strategy_beats_buy_hold = true
      ↔ (s.total_return_pct - b.total_return_pct > 0
          ∧ s.sharpe_ratio - b.sharpe_ratio > 0))
    ∧ (compareWithStrategy
        { total_return_pct := 10, sharpe_ratio := 1/2, max_drawdown_pct := 0
          total_trades := 0, win_rate := 0 }
        { total_return_pct := 15, sharpe_ratio := 3/10, max_drawdown_pct := 0 }).strategy_beats_buy_hold
      = false := by
  constructor
  · simp [compareWithStrategy]
  · norm_num [compareWithStrategy]

/-- C9 counterexample: a mode string that is neither `"percentage"` nor
`"fixed"` is accepted and silently yields zero slippage and zero
commission, contradicting fail-fast-at-construction. -/
theorem C9_counterexample :
    ¬ ("invalid" = "percentage") ∧ ¬ ("invalid" = "fixed")
    ∧ applySlippage ⟨true, "invalid", 1/10000, 100⟩ 100 Signal.BUY = 100
    ∧ applySlippage ⟨true, "invalid", 1/10000, 100⟩ 100 Signal.SELL = 100
    ∧ calculateCommission ⟨"invalid", 5/10000, 9/10000, 30⟩ 100000 true = 0
    ∧ calculateCommission ⟨"invalid", 5/10000, 9/10000, 30⟩ 100000 false = 0 := by
  refine ⟨by decide, by decide, ?_, ?_, ?_, ?_⟩ <;>
    simp [applySlippage, calculateCommission]

/-- C9 amended: an unrecognized slippage mode passes every price through
unchanged and an unrecognized commission mode charges zero, for every
signal, price, notional and maker flag. -/
theorem C9_unrecognized_mode_silent_zero (slip : SlippageConfig)
    (comm : CommissionConfig) (price v : ℚ) (s : Signal) (b : Bool)
    (h1 : slip.type ≠ "percentage") (h2 : slip.type ≠ "fixed")
    (h3 : comm.type ≠ "percentage") (h4 : comm.type ≠ "fixed") :
    applySlippage slip price s = price ∧ calculateCommission comm v b = 0 := by
  constructor
  · by_cases he : slip.enabled = false <;> simp [applySlippage, he, h1, h2]
  · simp [calculateCommission, h3, h4]

/-- Witness for the amended C9 at the mode string `"weird"`. -/
theorem C9_unrecognized_mode_silent_zero_witness :
    (("weird" : String) ≠ "percentage" ∧ ("weird" : String) ≠ "fixed")
    ∧ (applySlippage ⟨true, "weird", 1, 2⟩ 100 Signal.BUY = 100
        ∧ calculateCommission ⟨"weird", 1, 2, 3⟩ 500 true = 0) :=
  ⟨⟨by decide, by decide⟩,
    C9_unrecognized_mode_silent_zero ⟨true, "weird", 1, 2⟩ ⟨"weird", 1, 2, 3⟩
      100 500 Signal.BUY true (by decide) (by decide) (by decide) (by decide)⟩

/-- C10: the forced end-of-run close appends an EXIT record and moves the
internal balance, but adds no equity point; so the reported final balance
and total return (read off the last equity point) exclude that trade's pnl
and commission, while trade counts and fees include it. -/
theorem C10_forced_close_frame (slip : SlippageConfig) (comm : CommissionConfig)
    (risk : RiskModel) (strat : Strategy) (cap : ℚ) (df : List Bar)
    (pos : Position) (hne : df ≠ [])
    (hpos : (runLoop slip comm risk strat cap df).position = some pos) :
    (runBacktestState slip comm risk strat cap df).equity_curve
      = (runLoop slip comm risk strat cap df).equity_curve
    ∧ (runBacktestState slip comm risk strat cap df).trades
      = (runLoop slip comm risk strat cap df).trades
        ++ [(forcedClose slip comm risk strat cap df pos hne).trade]
    ∧ (forcedClose slip comm risk strat cap df pos hne).trade.rtype = "EXIT"
    ∧ (runBacktestState slip comm risk strat cap df).balance
      = (forcedClose slip comm risk strat cap df pos hne).new_balance
    ∧ (calcStatistics cap (runBacktestState slip comm risk strat cap df).trades
        (runBacktestState slip comm risk strat cap df).equity_curve).final_balance
      = (runLoop slip comm risk strat cap df).balance
    ∧ (calcStatistics cap (runBacktestState slip comm risk strat cap df).trades
        (runBacktestState slip comm risk strat cap df).equity_curve).total_return
      = (runLoop slip comm risk strat cap df).balance - cap
    ∧ (calcStatistics cap (runBacktestState slip comm risk strat cap df).trades
        (runBacktestState slip comm risk strat cap df).equity_curve).total_fees
      = ((runLoop slip comm risk strat cap df).trades.map
          fun t2 => t2.commission).sum
        + (forcedClose slip comm risk strat cap df pos hne).trade.commission
    ∧ (calcStatistics cap (runBacktestState slip comm risk strat cap df).trades
        (runBacktestState slip comm risk strat cap df).equity_curve).total_trades
      = (exitTradesOf (runLoop slip comm risk strat cap df).trades).length + 1
    ∧ (calcStatistics cap (runBacktestState slip comm risk strat cap df).trades
        (runBacktestState slip comm risk strat cap df).equity_curve).winning_trades
      = (winningOf (runLoop slip comm risk strat cap df).trades).length
        + (if 0 < tradePnl (forcedClose slip comm risk strat cap df pos hne).trade
            then 1 else 0)
    ∧ (calcStatistics cap (runBacktestState slip comm risk strat cap df).trades
        (runBacktestState slip comm risk strat cap df).equity_curve).losing_trades
      = (losingOf (runLoop slip comm risk strat cap df).trades).length
        + (if tradePnl (forcedClose slip comm risk strat cap df pos hne).trade < 0
            then 1 else 0) := by
  have hlast : df.getLast? = some (df.getLast hne) :=
    List.getLast?_eq_getLast df hne
  have hB : runBacktestState slip comm risk strat cap df
      = { runLoop slip comm risk strat cap df with
          trades := (runLoop slip comm risk strat cap df).trades
            ++ [(forcedClose slip comm risk strat cap df pos hne).trade]
          balance := (forcedClose slip comm risk strat cap df pos hne).new_balance } := by
    rw [runBacktestState]
    rw [hpos, hlast]
    simp [forcedClose, hpos]
  have hex : (forcedClose slip comm risk strat cap df pos hne).trade.rtype
      = "EXIT" := rfl
  have htrne : (runLoop slip comm risk strat cap df).trades
      ++ [(forcedClose slip comm risk strat cap df pos hne).trade] ≠ [] := by
    simp
  obtain ⟨ep, hep, hepb⟩ : ∃ ep,
      (runLoop slip comm risk strat cap df).equity_curve.getLast? = some ep
      ∧ ep.balance = (runLoop slip comm risk strat cap df).balance := by
    have := runLoop_equity_last slip comm risk strat cap df hne
    cases heq : (runLoop slip comm risk strat cap df).equity_curve.getLast? with
    | none => rw [heq] at this; exact absurd this (by simp)
    | some ep =>
        rw [heq] at this
        exact ⟨ep, rfl, by simpa using this⟩
  refine ⟨by rw [hB], by rw [hB], hex, by rw [hB], ?_, ?_, ?_, ?_, ?_, ?_⟩ <;>
    rw [hB] <;>
    simp only [calcStatistics, if_neg htrne]
  · simp [hep, hepb]
  · simp [hep, hepb]
  · simp [List.map_append, List.sum_append]
  · simp [exitTradesOf, List.filter_append, hex]
  · simp only [winningOf, exitTradesOf, List.filter_append]
    by_cases hw : 0 < tradePnl (forcedClose slip comm risk strat cap df pos hne).trade
    · simp [hex, hw]
    · simp [hex, hw]
  · simp only [losingOf, exitTradesOf, List.filter_append]
    by_cases hw : tradePnl (forcedClose slip comm risk strat cap df pos hne).trade < 0
    · simp [hex, hw]
    · simp [hex, hw]

theorem C10_forced_close_frame_witness :
    (([c7Bar, bar110] : List Bar) ≠ []
      ∧ (runLoop noSlippage zeroCommission unitRisk buyOnceStrategy 1000000
          [c7Bar, bar110]).position = some longAt100)
    ∧ ((runBacktestState noSlippage zeroCommission unitRisk buyOnceStrategy
          1000000 [c7Bar, bar110]).equity_curve
        = (runLoop noSlippage zeroCommission unitRisk buyOnceStrategy 1000000
            [c7Bar, bar110]).equity_curve
      ∧ (runBacktestState noSlippage zeroCommission unitRisk buyOnceStrategy
          1000000 [c7Bar, bar110]).trades
        = (runLoop noSlippage zeroCommission unitRisk buyOnceStrategy 1000000
            [c7Bar, bar110]).trades
          ++ [(forcedClose noSlippage zeroCommission unitRisk buyOnceStrategy
              1000000 [c7Bar, bar110] longAt100 (by simp)).trade]
      ∧ (forcedClose noSlippage zeroCommission unitRisk buyOnceStrategy
          1000000 [c7Bar, bar110] longAt100 (by simp)).trade.rtype = "EXIT"
      ∧ (runBacktestState noSlippage zeroCommission unitRisk buyOnceStrategy
          1000000 [c7Bar, bar110]).balance
        = (forcedClose noSlippage zeroCommission unitRisk buyOnceStrategy
            1000000 [c7Bar, bar110] longAt100 (by simp)).new_balance
      ∧ (calcStatistics 1000000
          (runBacktestState noSlippage zeroCommission unitRisk buyOnceStrategy
            1000000 [c7Bar, bar110]).trades
          (runBacktestState noSlippage zeroCommission unitRisk buyOnceStrategy
            1000000 [c7Bar, bar110]).equity_curve).final_balance
        = (runLoop noSlippage zeroCommission unitRisk buyOnceStrategy 1000000
            [c7Bar, bar110]).balance
      ∧ (calcStatistics 1000000
          (runBacktestState noSlippage zeroCommission unitRisk buyOnceStrategy
            1000000 [c7Bar, bar110]).trades
          (runBacktestState noSlippage zeroCommission unitRisk buyOnceStrategy
            1000000 [c7Bar, bar110]).equity_curve).total_return
        = (runLoop noSlippage zeroCommission unitRisk buyOnceStrategy 1000000
            [c7Bar, bar110]).balance - 1000000
      ∧ (calcStatistics 1000000
          (runBacktestState noSlippage zeroCommission unitRisk buyOnceStrategy
            1000000 [c7Bar, bar110]).trades
          (runBacktestState noSlippage zeroCommission unitRisk buyOnceStrategy
            1000000 [c7Bar, bar110]).equity_curve).total_fees
        = ((runLoop noSlippage zeroCommission unitRisk buyOnceStrategy 1000000
            [c7Bar, bar110]).trades.map fun t2 => t2.commission).sum
          + (forcedClose noSlippage zeroCommission unitRisk buyOnceStrategy
              1000000 [c7Bar, bar110] longAt100 (by simp)).trade.commission
      ∧ (calcStatistics 1000000
          (runBacktestState noSlippage zeroCommission unitRisk buyOnceStrategy
            1000000 [c7Bar, bar110]).trades
          (runBacktestState noSlippage zeroCommission unitRisk buyOnceStrategy
            1000000 [c7Bar, bar110]).equity_curve).total_trades
        = (exitTradesOf (runLoop noSlippage zeroCommission unitRisk
            buyOnceStrategy 1000000 [c7Bar, bar110]).trades).length + 1
      ∧ (calcStatistics 1000000
          (runBacktestState noSlippage zeroCommission unitRisk buyOnceStrategy
            1000000 [c7Bar, bar110]).trades
          (runBacktestState noSlippage zeroCommission unitRisk buyOnceStrategy
            1000000 [c7Bar, bar110]).equity_curve).winning_trades
        = (winningOf (runLoop noSlippage zeroCommission unitRisk
            buyOnceStrategy 1000000 [c7Bar, bar110]).trades).length
          + (if 0 < tradePnl (forcedClose noSlippage zeroCommission unitRisk
              buyOnceStrategy 1000000 [c7Bar, bar110] longAt100 (by simp)).trade
              then 1 else 0)
      ∧ (calcStatistics 1000000
          (runBacktestState noSlippage zeroCommission unitRisk buyOnceStrategy
            1000000 [c7Bar, bar110]).trades
          (runBacktestState noSlippage zeroCommission unitRisk buyOnceStrategy
            1000000 [c7Bar, bar110]).equity_curve).losing_trades
        = (losingOf (runLoop noSlippage zeroCommission unitRisk
            buyOnceStrategy 1000000 [c7Bar, bar110]).trades).length
          + (if tradePnl (forcedClose noSlippage zeroCommission unitRisk
              buyOnceStrategy 1000000 [c7Bar, bar110] longAt100 (by simp)).trade < 0
              then 1 else 0)) :=
  ⟨⟨by simp, by rfl⟩,
    C10_forced_close_frame noSlippage zeroCommission unitRisk buyOnceStrategy
      1000000 [c7Bar, bar110] longAt100 (by simp) (by rfl)⟩
